import Mathlib

/-!
# go-jwt: token issuance, validation and refresh

A shallow embedding of `src/go-jwt/main.go` (handlers `Signin`, `Welcome`,
`Refresh`, and `CheckValidToken`, `customError`, `getUserFromDB`).

Modelling conventions.

* A `time.Time` is the instant it denotes, an integer count of nanoseconds
  since the Unix epoch, and a `time.Duration` an integer count of nanoseconds.
  `time.Unix(sec, nsec)` wraps its int64 seconds the way Go does when it moves
  them to the internal epoch (year 1), and `t.Sub(u)` saturates at the minimum
  and maximum `Duration`.  Clock readings are instants of the running wall
  clock, so adding five minutes to one and taking its Unix second involve no
  machine limit.
* Every call of `time.Now()` is a separate reading of the wall clock.  A
  `Clock` is the stream of the readings still to come; reading it returns the
  head and the remaining stream (explicit state passing).
* A handler returns the response it writes with `c.JSON` together with the
  list of observable effects it performed (database lookup, `fmt.Println`,
  token signing), in program order.
* The JSON binder of gin, the SQL database, the RFC 3339 formatter and the
  cryptographic and encoding primitives of `github.com/dgrijalva/jwt-go` are
  external to the repository; they are parameters (`Env`, `JWTLib`).  The
  control flow of the library's `ParseWithClaims` and `StandardClaims.Valid`
  that `CheckValidToken` depends on is written out over those primitives.
-/

namespace GoJwt

/-! ## Package `time` -/

/-- A `time.Duration`, in nanoseconds. -/
abbrev Duration := Int

/-- A `time.Time`, as nanoseconds since the Unix epoch. -/
abbrev Time := Int

/-- Constant `time.Second`. -/
def Second : Duration := 1000000000

/-- Constant `time.Minute`. -/
def Minute : Duration := 60 * Second

/-- Constant `time.Hour`. -/
def Hour : Duration := 60 * Minute

/-- Method `t.Add(d)`. -/
def Time.Add (t : Time) (d : Duration) : Time := t + d

/-- Method `t.Unix()`: whole seconds since the epoch, rounded down. -/
def Time.Unix (t : Time) : Int := t / Second

/-- Constant `minDuration` of package `time`: the least int64. -/
def minDuration : Duration := -9223372036854775808

/-- Constant `maxDuration` of package `time`: the greatest int64. -/
def maxDuration : Duration := 9223372036854775807

/-- Method `t.Sub(u)` for instants without a monotonic reading: the difference when it
fits a `Duration`, else the minimum `Duration` when `t` is before `u` and the maximum
otherwise. -/
def Time.Sub (t u : Time) : Duration :=
  let d := t - u
  if minDuration ≤ d ∧ d ≤ maxDuration then d
  else if t < u then minDuration
  else maxDuration

/-- Two's complement wrap-around of int64 arithmetic. -/
def wrapInt64 (x : Int) : Int :=
  (x + 9223372036854775808) % 18446744073709551616 - 9223372036854775808

/-- Whether an integer is an int64 value. -/
def isInt64 (x : Int) : Prop := -9223372036854775808 ≤ x ∧ x ≤ 9223372036854775807

instance (x : Int) : Decidable (isInt64 x) := by
  unfold isInt64
  exact inferInstance

/-- Constant `unixToInternal` of package `time`: seconds from year 1 to 1970. -/
def unixToInternal : Int := 62135596800

/-- Function `unixTime(sec, nsec)` of package `time`: the internal seconds are
`sec + unixToInternal` in int64 arithmetic; the result is the instant they denote. -/
def unixTime (sec nsec : Int) : Time :=
  (wrapInt64 (sec + unixToInternal) - unixToInternal) * Second + nsec

/-- Function `time.Unix(sec, nsec)`. -/
def time.Unix (sec nsec : Int) : Time :=
  if nsec < 0 ∨ nsec ≥ 1000000000 then
    let n := Int.tdiv nsec 1000000000
    let sec1 := wrapInt64 (sec + n)
    let nsec1 := nsec - n * 1000000000
    if nsec1 < 0 then unixTime (wrapInt64 (sec1 - 1)) (nsec1 + 1000000000)
    else unixTime sec1 nsec1
  else unixTime sec nsec

/-- The readings that successive calls of `time.Now()` will return. -/
abbrev Clock := Nat → Time

/-- Function `time.Now()`: the next reading, and the clock after it. -/
def time.Now (clk : Clock) : Time × Clock := (clk 0, fun n => clk (n + 1))

/-! ## Data model of `main.go` -/

/-- The struct `jwt.StandardClaims` of the library; a zero value is an unset field. -/
structure StandardClaims where
  Audience : String := ""
  ExpiresAt : Int := 0
  Id : String := ""
  IssuedAt : Int := 0
  Issuer : String := ""
  NotBefore : Int := 0
  Subject : String := ""
deriving DecidableEq, Repr

/-- Struct `Claims`: a username with `jwt.StandardClaims` embedded. -/
structure Claims extends StandardClaims where
  Username : String := ""
deriving DecidableEq, Repr

/-- Struct `User`. -/
structure User where
  ID : Int := 0
  Username : String := ""
  Password : String := ""
  Email : String := ""
  FirstName : String := ""
  LastName : String := ""
  Status : Int := 0
deriving DecidableEq, Repr

/-- Struct `Credentials`. -/
structure Credentials where
  Password : String := ""
  Username : String := ""
deriving DecidableEq, Repr

/-- Struct `JWTToken`, bound from the request body. -/
structure JWTToken where
  Token : String := ""
deriving DecidableEq, Repr

/-- The signing key `jwtKey`. -/
def jwtKey : String := "my_secret_key"

/-- A Go `error` built by `errors.New`, identified by its text. -/
structure GoError where
  text : String
deriving DecidableEq, Repr

/-- Method `err.Error()`. -/
def GoError.Error (e : GoError) : String := e.text

/-- Function `customError`. -/
def customError (message : String) : GoError := ⟨message⟩

/-! ## The JWT library -/

/-- The errors `jwt.ParseWithClaims` can hand back: the sentinel
`jwt.ErrSignatureInvalid`, or a `*jwt.ValidationError` with its `Errors` bit field. -/
inductive ParseError where
  | ErrSignatureInvalid
  | ValidationError (Errors : Nat)
deriving DecidableEq, Repr

def ValidationErrorMalformed : Nat := 1
def ValidationErrorUnverifiable : Nat := 2
def ValidationErrorSignatureInvalid : Nat := 4
def ValidationErrorExpired : Nat := 16
def ValidationErrorIssuedAt : Nat := 32
def ValidationErrorNotValidYet : Nat := 128

/-- A parsed `*jwt.Token`: its claims and its `Valid` flag. -/
structure Token where
  Claims : Claims
  Valid : Bool
deriving DecidableEq, Repr

/-- The primitives of the JWT library used by the handlers.
`SignedString c key` is `jwt.NewWithClaims(jwt.SigningMethodHS256, c).SignedString(key)`;
`ParseUnverified s` splits and decodes the segments of a token string;
`Verify s key` tells whether the signature segment of `s` verifies under `key`. -/
structure JWTLib where
  SignedString : Claims → String → Except GoError String
  ParseUnverified : String → Except ParseError Claims
  Verify : String → String → Bool

/-- Library helper `verifyExp`. -/
def verifyExp (exp now : Int) (required : Bool) : Bool :=
  if exp = 0 then !required else decide (now ≤ exp)

/-- Library helper `verifyIat`. -/
def verifyIat (iat now : Int) (required : Bool) : Bool :=
  if iat = 0 then !required else decide (now ≥ iat)

/-- Library helper `verifyNbf`. -/
def verifyNbf (nbf now : Int) (required : Bool) : Bool :=
  if nbf = 0 then !required else decide (now ≥ nbf)

/-- Library method `StandardClaims.Valid`, given the Unix second `now` it reads:
the `Errors` bit field of the validation error it builds (0 when the claims are valid). -/
def StandardClaims.Valid (c : StandardClaims) (now : Int) : Nat :=
  let e0 : Nat := 0
  let e1 := if verifyExp c.ExpiresAt now false = false then e0 ||| ValidationErrorExpired else e0
  let e2 := if verifyIat c.IssuedAt now false = false then e1 ||| ValidationErrorIssuedAt else e1
  let e3 := if verifyNbf c.NotBefore now false = false then e2 ||| ValidationErrorNotValidYet else e2
  e3

/-- Library function `jwt.ParseWithClaims` with a key function that returns `key`:
decode the segments, validate the claims against the clock, verify the signature,
and return the token with `Valid = true` only when no error bit is set. -/
def ParseWithClaims (L : JWTLib) (tokenString : String) (key : String) (clk : Clock) :
    Except ParseError Token × Clock :=
  match L.ParseUnverified tokenString with
  | .error err => (.error err, clk)
  | .ok claims =>
    let (now, clk1) := time.Now clk
    let vErr := claims.toStandardClaims.Valid (Time.Unix now)
    let vErr := if L.Verify tokenString key then vErr else vErr ||| ValidationErrorSignatureInvalid
    if vErr = 0 then (.ok ⟨claims, true⟩, clk1)
    else (.error (.ValidationError vErr), clk1)

/-! ## Collaborators and observable effects -/

/-- What the handlers consume from outside the package. -/
structure Env where
  jwt : JWTLib
  /-- The call `c.ShouldBindJSON(&creds)` on the request body. -/
  ShouldBindCredentials : String → Except GoError Credentials
  /-- The call `c.ShouldBindJSON(&jwrtToken)` on the request body. -/
  ShouldBindJWTToken : String → Except GoError JWTToken
  /-- The query of `getUserFromDB` for a username and password, scanned into a row. -/
  QueryRow : String → String → Except GoError User
  /-- The call `t.Format(time.RFC3339)`. -/
  FormatRFC3339 : Time → String

/-- A value stored in a `gin.H` response map. -/
inductive JSONValue where
  | str (s : String)
  | time (t : Time)
  | err (e : GoError)
deriving DecidableEq, Repr

/-- A response written by `c.JSON(status, gin.H ...)`. -/
structure Response where
  status : Nat
  body : List (String × JSONValue)
deriving DecidableEq, Repr

def StatusOK : Nat := 200
def StatusBadRequest : Nat := 400
def StatusUnauthorized : Nat := 401
def StatusNotAcceptable : Nat := 406
def StatusInternalServerError : Nat := 500

/-- An effect a handler performs besides writing its response. -/
inductive Event where
  | QueryRow (username password : String)
  | Println (user : Option User)
  | SignedString (claims : Claims) (key : String)
deriving DecidableEq, Repr

/-- Whether an effect is the signing of a token. -/
def Event.isSign : Event → Bool
  | .SignedString _ _ => true
  | _ => false

/-- Whether an effect is a credential store lookup. -/
def Event.isQuery : Event → Bool
  | .QueryRow _ _ => true
  | _ => false

/-- The result of a handler: the response and the effects, in program order. -/
structure Outcome where
  response : Response
  events : List Event
deriving DecidableEq, Repr

/-! ## The functions of `main.go` -/

/-- Function `getUserFromDB`: the six scanned columns of the matching row, or the error
of the query. The `log.Fatalln` exit on a failing `sql.Open` is not modelled. -/
def getUserFromDB (E : Env) (expUsername expPassword : String) : Except GoError User × List Event :=
  match E.QueryRow expUsername expPassword with
  | .error err => (.error err, [Event.QueryRow expUsername expPassword])
  | .ok row =>
    (.ok { ID := row.ID, Username := row.Username, Password := row.Password,
           Email := row.Email, FirstName := row.FirstName, LastName := row.LastName },
     [Event.QueryRow expUsername expPassword])

/-- Function `CheckValidToken` on a request body. -/
def CheckValidToken (E : Env) (body : String) (clk : Clock) : Except GoError Claims × Clock :=
  match E.ShouldBindJWTToken body with
  | .error _ => (.error (customError "Token must be supplied"), clk)
  | .ok jwrtToken =>
    let tknStr := jwrtToken.Token
    match ParseWithClaims E.jwt tknStr jwtKey clk with
    | (.error err, clk1) =>
      if err = ParseError.ErrSignatureInvalid then
        (.error (customError "Invalid token signature"), clk1)
      else
        (.error (customError "Invalid token signature"), clk1)
    | (.ok tkn, clk1) =>
      if !tkn.Valid then
        (.error (customError "Unauthorized Access, token not valid"), clk1)
      else
        (.ok tkn.Claims, clk1)

/-- Handler `Signin`. -/
def Signin (E : Env) (body : String) (clk : Clock) : Outcome :=
  match E.ShouldBindCredentials body with
  | .error err => ⟨⟨StatusNotAcceptable, [("error", .err err)]⟩, []⟩
  | .ok creds =>
    match getUserFromDB E creds.Username creds.Password with
    | (.error _, ev) =>
      ⟨⟨StatusUnauthorized, [("error", .str "You are not authorzied")]⟩,
        ev ++ [Event.Println none]⟩
    | (.ok user, ev) =>
      let expirationTime := Time.Add (time.Now clk).1 (5 * Minute)
      let claims : Claims := { Username := user.Username, ExpiresAt := Time.Unix expirationTime }
      match E.jwt.SignedString claims jwtKey with
      | .error err =>
        ⟨⟨StatusInternalServerError, [("error", .str err.Error)]⟩,
          ev ++ [Event.Println (some user), Event.SignedString claims jwtKey]⟩
      | .ok tokenString =>
        ⟨⟨StatusOK, [("Name", .str "token"), ("Value", .str tokenString),
                     ("Expires", .time expirationTime)]⟩,
          ev ++ [Event.Println (some user), Event.SignedString claims jwtKey]⟩

/-- Handler `Welcome`. -/
def Welcome (E : Env) (body : String) (clk : Clock) : Outcome :=
  match CheckValidToken E body clk with
  | (.error err, _) => ⟨⟨StatusInternalServerError, [("message", .str err.Error)]⟩, []⟩
  | (.ok claims, _) =>
    ⟨⟨StatusOK, [("message", .str ("Welcome " ++ claims.Username ++ "!"))]⟩, []⟩

/-- Handler `Refresh`. -/
def Refresh (E : Env) (body : String) (clk : Clock) : Outcome :=
  match CheckValidToken E body clk with
  | (.error err, _) => ⟨⟨StatusInternalServerError, [("message", .str err.Error)]⟩, []⟩
  | (.ok claims, clk1) =>
    let (now1, clk2) := time.Now clk1
    if Time.Sub (time.Unix claims.ExpiresAt 0) now1 > 2 * Hour then
      let t := time.Unix claims.ExpiresAt 0
      let ut := E.FormatRFC3339 t
      ⟨⟨StatusBadRequest,
        [("error", .str ("Your token is new for session, wait for " ++ ut ++ " to renew token"))]⟩, []⟩
    else
      let expirationTime := Time.Add (time.Now clk2).1 (5 * Minute)
      let claims : Claims := { claims with ExpiresAt := Time.Unix expirationTime }
      match E.jwt.SignedString claims jwtKey with
      | .error _ =>
        ⟨⟨StatusInternalServerError, [("error", .str "Internal Server Error")]⟩,
          [Event.SignedString claims jwtKey]⟩
      | .ok tokenString =>
        ⟨⟨StatusOK, [("Name", .str "session_token"), ("Value", .str tokenString),
                     ("Expires", .time expirationTime)]⟩,
          [Event.SignedString claims jwtKey]⟩

/-- The claims literal of `Signin` (lines 85-91) for a username and a clock reading. -/
def signinClaims (username : String) (now : Time) : Claims :=
  { Username := username, ExpiresAt := Time.Unix (Time.Add now (5 * Minute)) }

/-- The claims `Refresh` signs (lines 156-158): the parsed claims with `ExpiresAt` overwritten. -/
def refreshClaims (claims : Claims) (now : Time) : Claims :=
  { claims with ExpiresAt := Time.Unix (Time.Add now (5 * Minute)) }

/-! ## A concrete environment

A small instance of the collaborators, on which the handlers can be evaluated.
The library instance knows four token strings: `T1`, carrying the claims that
`Signin` builds for `alice` when the clock reads 1000 s; `T1x`, the same payload
with a signature that does not verify; `T2`, a token signed with the key
whose claims also carry an issuer; `T3`, a token signed with the key that
expires at 20000 s; and `T4`, a token signed with the key whose expiry is the
greatest int64. -/

/-- Claims of `T1` and `T1x`. -/
def demoClaims : Claims := { Username := "alice", ExpiresAt := 1300 }

/-- Claims of `T2`. -/
def demoForeign : Claims := { Username := "alice", ExpiresAt := 1300, Issuer := "other" }

/-- Claims of `T3`. -/
def demoLongLived : Claims := { Username := "alice", ExpiresAt := 20000 }

/-- Claims of `T4`. -/
def demoMaxExpiry : Claims := { Username := "alice", ExpiresAt := 9223372036854775807 }

/-- The library instance of the concrete environment. -/
def demoLib : JWTLib where
  SignedString c _ :=
    .ok (if c = demoClaims then "T1" else if c = demoForeign then "T2"
         else if c = demoLongLived then "T3" else if c = demoMaxExpiry then "T4" else "T0")
  ParseUnverified s :=
    if s = "T1" then .ok demoClaims
    else if s = "T1x" then .ok demoClaims
    else if s = "T2" then .ok demoForeign
    else if s = "T3" then .ok demoLongLived
    else if s = "T4" then .ok demoMaxExpiry
    else .error (.ValidationError ValidationErrorMalformed)
  Verify s key := (s = "T1" || s = "T2" || s = "T3" || s = "T4") && key = jwtKey

/-- The concrete environment: the body of a token request is the token string,
and the credential store holds the single user `alice` with password `pw`. -/
def demoEnv : Env where
  jwt := demoLib
  ShouldBindCredentials body :=
    if body = "alice:pw" then .ok { Username := "alice", Password := "pw" }
    else if body = "alice:bad" then .ok { Username := "alice", Password := "bad" }
    else .error ⟨"invalid character"⟩
  ShouldBindJWTToken body := if body = "" then .error ⟨"EOF"⟩ else .ok ⟨body⟩
  QueryRow u p :=
    if u = "alice" ∧ p = "pw" then
      .ok { ID := 1, Username := "alice", Password := "pw", Email := "alice@example.org" }
    else .error ⟨"sql: no rows in result set"⟩
  FormatRFC3339 _ := "1970-01-01T00:21:40Z"

/-- A clock whose every reading is `s` seconds after the epoch. -/
def clockAt (s : Int) : Clock := fun _ => s * Second

/-- A clock whose every reading is `ns` nanoseconds after the epoch. -/
def clockAtNanos (ns : Int) : Clock := fun _ => ns

/-! ## Auxiliary facts -/

theorem Unix_le_of_le_seconds (t sec : Int) (h : t ≤ sec * Second) :
    Time.Unix t ≤ sec := by
  have h1 : t ≤ sec * 1000000000 := h
  show t / 1000000000 ≤ sec
  omega

theorem Unix_add_five_minutes (now : Int) :
    Time.Unix (Time.Add now (5 * Minute)) = (now + 300000000000) / 1000000000 := by
  show (now + 5 * (60 * 1000000000)) / 1000000000 = (now + 300000000000) / 1000000000
  norm_num

theorem Add_five_minutes (now : Int) : Time.Add now (5 * Minute) = now + 300000000000 := by
  show now + 5 * (60 * 1000000000) = now + 300000000000
  norm_num

theorem now_lt_expiry (now : Int) :
    now < Time.Unix (Time.Add now (5 * Minute)) * Second := by
  show now < (now + 5 * (60 * 1000000000)) / 1000000000 * 1000000000
  omega

theorem expiry_ne_zero (now : Int) (h : 0 ≤ now) :
    Time.Unix (Time.Add now (5 * Minute)) ≠ 0 := by
  show (now + 5 * (60 * 1000000000)) / 1000000000 ≠ 0
  omega

theorem wrapInt64_of_isInt64 (x : Int) (h1 : -9223372036854775808 ≤ x)
    (h2 : x ≤ 9223372036854775807) : wrapInt64 x = x := by
  unfold wrapInt64
  omega

theorem wrapInt64_of_overflow (x : Int) (h1 : 9223372036854775808 ≤ x)
    (h2 : x ≤ 27670116110564327423) : wrapInt64 x = x - 18446744073709551616 := by
  unfold wrapInt64
  omega

theorem time_Unix_zero (sec : Int) : time.Unix sec 0 = unixTime sec 0 := by
  unfold time.Unix
  simp

theorem time_Unix_in_range (sec : Int) (h1 : -9223372036854775808 ≤ sec)
    (h2 : sec ≤ 9223371974719179007) : time.Unix sec 0 = sec * 1000000000 := by
  rw [time_Unix_zero]
  have hw : wrapInt64 (sec + 62135596800) = sec + 62135596800 :=
    wrapInt64_of_isInt64 _ (by omega) (by omega)
  show (wrapInt64 (sec + 62135596800) - 62135596800) * 1000000000 + 0 = sec * 1000000000
  rw [hw]
  omega

theorem time_Unix_le (sec : Int) (h1 : -9223372036854775808 ≤ sec) :
    time.Unix sec 0 ≤ sec * 1000000000 := by
  rw [time_Unix_zero]
  have hw : wrapInt64 (sec + 62135596800) ≤ sec + 62135596800 := by
    unfold wrapInt64
    omega
  show (wrapInt64 (sec + 62135596800) - 62135596800) * 1000000000 + 0 ≤ sec * 1000000000
  omega

theorem time_Unix_wrapped (sec : Int) (h1 : 9223371974719179008 ≤ sec)
    (h2 : sec ≤ 9223372036854775807) :
    time.Unix sec 0 = (sec - 18446744073709551616) * 1000000000 := by
  rw [time_Unix_zero]
  have hw : wrapInt64 (sec + 62135596800) = sec + 62135596800 - 18446744073709551616 :=
    wrapInt64_of_overflow _ (by omega) (by omega)
  show (wrapInt64 (sec + 62135596800) - 62135596800) * 1000000000 + 0
    = (sec - 18446744073709551616) * 1000000000
  rw [hw]
  omega

theorem wrapped_remaining (e now : Int) (h1 : 9223371974719179008 ≤ e)
    (h3 : e ≤ 9223372036854775807) (h0 : 0 ≤ now) (h2 : now ≤ 9223372036854775807) :
    ¬ (e - 18446744073709551616) * 1000000000 - now > 7200000000000 ∧
    e * 1000000000 - now > 7200000000000 := by
  omega

theorem near_expiry_not_rejected (d e now : Int) (h1 : d ≤ e * 1000000000)
    (h2 : e * 1000000000 - now ≤ 30000000000) : ¬ d - now > 7200000000000 := by
  omega

theorem Sub_gt_two_hours_iff (t u : Int) :
    Time.Sub t u > 2 * Hour ↔ t - u > 7200000000000 := by
  have hH : (2 * Hour : Int) = 7200000000000 := by
    show (2 * (60 * (60 * 1000000000)) : Int) = 7200000000000
    norm_num
  rw [hH]
  unfold Time.Sub
  show (if (-9223372036854775808 : Int) ≤ t - u ∧ t - u ≤ 9223372036854775807 then t - u
        else if t < u then (-9223372036854775808 : Int) else 9223372036854775807)
      > 7200000000000 ↔ t - u > 7200000000000
  split_ifs <;> omega

theorem Valid_eq_zero (c : StandardClaims) (now : Int)
    (he : c.ExpiresAt = 0 ∨ now ≤ c.ExpiresAt)
    (hi : c.IssuedAt = 0 ∨ c.IssuedAt ≤ now)
    (hn : c.NotBefore = 0 ∨ c.NotBefore ≤ now) :
    c.Valid now = 0 := by
  have h1 : verifyExp c.ExpiresAt now false = true := by
    unfold verifyExp
    rcases he with he | he
    · simp [he]
    · by_cases h0 : c.ExpiresAt = 0 <;> simp [h0, he]
  have h2 : verifyIat c.IssuedAt now false = true := by
    unfold verifyIat
    rcases hi with hi | hi
    · simp [hi]
    · by_cases h0 : c.IssuedAt = 0 <;> simp [h0, hi]
  have h3 : verifyNbf c.NotBefore now false = true := by
    unfold verifyNbf
    rcases hn with hn | hn
    · simp [hn]
    · by_cases h0 : c.NotBefore = 0 <;> simp [h0, hn]
  simp [StandardClaims.Valid, h1, h2, h3]

theorem Valid_ne_zero_of_expired (c : StandardClaims) (now : Int)
    (h0 : c.ExpiresAt ≠ 0) (h : c.ExpiresAt < now) :
    c.Valid now ≠ 0 := by
  have h1 : verifyExp c.ExpiresAt now false = false := by
    unfold verifyExp
    simp [h0, h]
  unfold StandardClaims.Valid
  simp only [h1, if_true]
  unfold ValidationErrorExpired ValidationErrorIssuedAt ValidationErrorNotValidYet
  split_ifs <;> decide

theorem or_signature_invalid_ne_zero (e : Nat) : e ||| ValidationErrorSignatureInvalid ≠ 0 := by
  intro h
  have h2 : (e ||| ValidationErrorSignatureInvalid).testBit 2 = true := by
    rw [Nat.testBit_or]
    simp [ValidationErrorSignatureInvalid]
    right
    decide
  rw [h] at h2
  simp at h2

theorem ParseWithClaims_accepts (L : JWTLib) (s key : String) (clk : Clock) (c : Claims)
    (hdec : L.ParseUnverified s = .ok c) (hver : L.Verify s key = true)
    (hval : c.toStandardClaims.Valid (Time.Unix (clk 0)) = 0) :
    ParseWithClaims L s key clk = (.ok ⟨c, true⟩, (time.Now clk).2) := by
  simp [ParseWithClaims, hdec, hver, time.Now, hval]

theorem ParseWithClaims_rejects_unverified (L : JWTLib) (s key : String) (clk : Clock) (c : Claims)
    (hdec : L.ParseUnverified s = .ok c) (hver : L.Verify s key = false) :
    ∃ e, ParseWithClaims L s key clk = (.error e, (time.Now clk).2) := by
  refine ⟨.ValidationError (c.toStandardClaims.Valid (Time.Unix (clk 0))
    ||| ValidationErrorSignatureInvalid), ?_⟩
  simp [ParseWithClaims, hdec, hver, time.Now, or_signature_invalid_ne_zero]

theorem ParseWithClaims_rejects_expired (L : JWTLib) (s key : String) (clk : Clock) (c : Claims)
    (hdec : L.ParseUnverified s = .ok c) (hver : L.Verify s key = true)
    (h0 : c.ExpiresAt ≠ 0) (h : c.ExpiresAt < Time.Unix (clk 0)) :
    ∃ e, ParseWithClaims L s key clk = (.error e, (time.Now clk).2) := by
  refine ⟨.ValidationError (c.toStandardClaims.Valid (Time.Unix (clk 0))), ?_⟩
  have hne := Valid_ne_zero_of_expired c.toStandardClaims (Time.Unix (clk 0)) h0 h
  simp [ParseWithClaims, hdec, hver, time.Now, hne]

theorem CheckValidToken_of_parse_error (E : Env) (body : String) (clk clk1 : Clock)
    (jw : JWTToken) (e : ParseError)
    (hbind : E.ShouldBindJWTToken body = .ok jw)
    (hparse : ParseWithClaims E.jwt jw.Token jwtKey clk = (.error e, clk1)) :
    CheckValidToken E body clk = (.error (customError "Invalid token signature"), clk1) := by
  unfold CheckValidToken
  simp only [hbind, hparse]
  split_ifs <;> rfl

theorem CheckValidToken_accepts (E : Env) (body : String) (clk : Clock)
    (jw : JWTToken) (c : Claims)
    (hbind : E.ShouldBindJWTToken body = .ok jw)
    (hdec : E.jwt.ParseUnverified jw.Token = .ok c)
    (hver : E.jwt.Verify jw.Token jwtKey = true)
    (hval : c.toStandardClaims.Valid (Time.Unix (clk 0)) = 0) :
    CheckValidToken E body clk = (.ok c, (time.Now clk).2) := by
  unfold CheckValidToken
  simp only [hbind, ParseWithClaims_accepts E.jwt jw.Token jwtKey clk c hdec hver hval]
  rfl

theorem Refresh_of_error (E : Env) (body : String) (clk clk1 : Clock) (e : GoError)
    (h : CheckValidToken E body clk = (.error e, clk1)) :
    Refresh E body clk =
      ⟨⟨StatusInternalServerError, [("message", .str e.Error)]⟩, []⟩ := by
  unfold Refresh
  rw [h]

theorem Refresh_of_reject (E : Env) (body : String) (clk clk1 : Clock) (c : Claims)
    (h : CheckValidToken E body clk = (.ok c, clk1))
    (hr : Time.Sub (time.Unix c.ExpiresAt 0) (clk1 0) > 2 * Hour) :
    Refresh E body clk =
      ⟨⟨StatusBadRequest,
        [("error", .str ("Your token is new for session, wait for "
          ++ E.FormatRFC3339 (time.Unix c.ExpiresAt 0) ++ " to renew token"))]⟩, []⟩ := by
  unfold Refresh
  rw [h]
  simp only [time.Now]
  rw [if_pos hr]

theorem Refresh_of_allow (E : Env) (body : String) (clk clk1 : Clock) (c : Claims) (s : String)
    (h : CheckValidToken E body clk = (.ok c, clk1))
    (hr : ¬ Time.Sub (time.Unix c.ExpiresAt 0) (clk1 0) > 2 * Hour)
    (hs : E.jwt.SignedString
      { c with ExpiresAt := Time.Unix (Time.Add (clk1 1) (5 * Minute)) } jwtKey = .ok s) :
    Refresh E body clk =
      ⟨⟨StatusOK, [("Name", .str "session_token"), ("Value", .str s),
                   ("Expires", .time (Time.Add (clk1 1) (5 * Minute)))]⟩,
        [Event.SignedString
          { c with ExpiresAt := Time.Unix (Time.Add (clk1 1) (5 * Minute)) } jwtKey]⟩ := by
  unfold Refresh
  rw [h]
  simp only [time.Now]
  rw [if_neg hr]
  simp only [zero_add]
  rw [hs]

theorem CheckValidToken_clock (E : Env) (body : String) (clk clk1 : Clock) (c : Claims)
    (h : CheckValidToken E body clk = (.ok c, clk1)) : clk1 = (time.Now clk).2 := by
  unfold CheckValidToken at h
  cases hb : E.ShouldBindJWTToken body with
  | error e => rw [hb] at h; simp at h
  | ok jw =>
    rw [hb] at h
    dsimp only at h
    unfold ParseWithClaims at h
    cases hd : E.jwt.ParseUnverified jw.Token with
    | error e =>
      rw [hd] at h
      dsimp only at h
      split_ifs at h <;> simp at h
    | ok c0 =>
      rw [hd] at h
      dsimp only at h
      split_ifs at h <;> simp at h <;> exact h.2.symm

theorem CheckValidToken_ok_eq (E : Env) (body : String) (clk : Clock) (c : Claims)
    (h : (CheckValidToken E body clk).1 = .ok c) :
    CheckValidToken E body clk = (.ok c, (time.Now clk).2) := by
  cases hcv : CheckValidToken E body clk with
  | mk r clk1 =>
    rw [hcv] at h
    simp only at h
    subst h
    rw [CheckValidToken_clock E body clk clk1 c hcv]

theorem refreshClaims_eq_signinClaims_iff (c : Claims) (now : Time) :
    refreshClaims c now = signinClaims c.Username now ↔
      c.Audience = "" ∧ c.Id = "" ∧ c.IssuedAt = 0 ∧ c.Issuer = "" ∧ c.NotBefore = 0 ∧
      c.Subject = "" := by
  obtain ⟨⟨a, e, i, ia, iss, nb, sub⟩, u⟩ := c
  simp [refreshClaims, signinClaims]

theorem Refresh_allow_outcome (E : Env) (body : String) (clk : Clock) (c : Claims)
    (hacc : (CheckValidToken E body clk).1 = .ok c)
    (hr : ¬ Time.Sub (time.Unix c.ExpiresAt 0) (clk 1) > 2 * Hour) :
    (Refresh E body clk).response.status ≠ StatusBadRequest ∧
    (Refresh E body clk).events =
      [Event.SignedString
        { c with ExpiresAt := (clk 2 + 300000000000) / 1000000000 } jwtKey] ∧
    ∀ s, E.jwt.SignedString
        { c with ExpiresAt := (clk 2 + 300000000000) / 1000000000 } jwtKey = .ok s →
      (Refresh E body clk).response =
        ⟨StatusOK, [("Name", .str "session_token"), ("Value", .str s),
                    ("Expires", .time (clk 2 + 300000000000))]⟩ := by
  have hcv := CheckValidToken_ok_eq E body clk c hacc
  have hR : Refresh E body clk =
      match E.jwt.SignedString
          { c with ExpiresAt := (clk 2 + 300000000000) / 1000000000 } jwtKey with
      | .error _ =>
        ⟨⟨StatusInternalServerError, [("error", .str "Internal Server Error")]⟩,
          [Event.SignedString
            { c with ExpiresAt := (clk 2 + 300000000000) / 1000000000 } jwtKey]⟩
      | .ok tokenString =>
        ⟨⟨StatusOK, [("Name", .str "session_token"), ("Value", .str tokenString),
                     ("Expires", .time (clk 2 + 300000000000))]⟩,
          [Event.SignedString
            { c with ExpiresAt := (clk 2 + 300000000000) / 1000000000 } jwtKey]⟩ := by
    unfold Refresh
    rw [hcv]
    simp only [time.Now]
    rw [if_neg hr]
    simp only [zero_add, Unix_add_five_minutes, Add_five_minutes]
    rfl
  rw [hR]
  cases hs : E.jwt.SignedString
      { c with ExpiresAt := (clk 2 + 300000000000) / 1000000000 } jwtKey with
  | error e =>
    refine ⟨?_, rfl, ?_⟩
    · show StatusInternalServerError ≠ StatusBadRequest
      decide
    · intro s h
      cases h
  | ok t =>
    refine ⟨?_, rfl, ?_⟩
    · show StatusOK ≠ StatusBadRequest
      decide
    · intro s h
      cases h
      rfl

theorem Signin_of_user (E : Env) (body : String) (clk : Clock) (creds : Credentials)
    (user : User) (s : String)
    (hbind : E.ShouldBindCredentials body = .ok creds)
    (hdb : E.QueryRow creds.Username creds.Password = .ok user)
    (hsign : E.jwt.SignedString (signinClaims user.Username (clk 0)) jwtKey = .ok s) :
    Signin E body clk =
      ⟨⟨StatusOK, [("Name", .str "token"), ("Value", .str s),
                   ("Expires", .time (Time.Add (clk 0) (5 * Minute)))]⟩,
        [Event.QueryRow creds.Username creds.Password,
         Event.Println (some { user with Status := 0 }),
         Event.SignedString (signinClaims user.Username (clk 0)) jwtKey]⟩ := by
  unfold signinClaims at hsign
  unfold Signin getUserFromDB
  simp only [hbind, hdb, time.Now, hsign]
  rfl

theorem Signin_sign_events (E : Env) (body : String) (clk : Clock) (c : Claims) (key : String)
    (h : Event.SignedString c key ∈ (Signin E body clk).events) :
    key = jwtKey ∧ ∃ creds user, E.ShouldBindCredentials body = .ok creds ∧
      E.QueryRow creds.Username creds.Password = .ok user ∧
      c = signinClaims user.Username (clk 0) := by
  unfold Signin getUserFromDB at h
  cases hb : E.ShouldBindCredentials body with
  | error e => rw [hb] at h; simp at h
  | ok creds =>
    rw [hb] at h
    dsimp only at h
    cases hq : E.QueryRow creds.Username creds.Password with
    | error e => rw [hq] at h; simp at h
    | ok user =>
      rw [hq] at h
      dsimp only at h
      have hc : c = signinClaims user.Username (clk 0) ∧ key = jwtKey := by
        cases hs : E.jwt.SignedString
            { Username := user.Username,
              ExpiresAt := Time.Unix (Time.Add (time.Now clk).1 (5 * Minute)) } jwtKey with
        | error e => rw [hs] at h; simpa [signinClaims, time.Now] using h
        | ok t => rw [hs] at h; simpa [signinClaims, time.Now] using h
      exact ⟨hc.2, creds, user, rfl, hq, hc.1⟩

theorem Refresh_sign_events (E : Env) (body : String) (clk : Clock) (c : Claims) (key : String)
    (h : Event.SignedString c key ∈ (Refresh E body clk).events) :
    key = jwtKey ∧ ∃ c0, (CheckValidToken E body clk).1 = .ok c0 ∧
      ¬ Time.Sub (time.Unix c0.ExpiresAt 0) (clk 1) > 2 * Hour ∧
      c = refreshClaims c0 (clk 2) := by
  cases hcv : CheckValidToken E body clk with
  | mk r clk1 =>
    cases r with
    | error e =>
      rw [Refresh_of_error E body clk clk1 e hcv] at h
      simp at h
    | ok c0 =>
      have hclk := CheckValidToken_clock E body clk clk1 c0 hcv
      by_cases hr : Time.Sub (time.Unix c0.ExpiresAt 0) (clk1 0) > 2 * Hour
      · rw [Refresh_of_reject E body clk clk1 c0 hcv hr] at h
        simp at h
      · have h0 : clk1 0 = clk 1 := by rw [hclk]; rfl
        have h1 : clk1 1 = clk 2 := by rw [hclk]; rfl
        have hc : c = refreshClaims c0 (clk 2) ∧ key = jwtKey := by
          unfold Refresh at h
          rw [hcv] at h
          simp only [time.Now] at h
          rw [if_neg hr] at h
          simp only [zero_add] at h
          rw [h1] at h
          cases hs : E.jwt.SignedString
              { c0 with ExpiresAt := Time.Unix (Time.Add (clk 2) (5 * Minute)) } jwtKey with
          | error e => rw [hs] at h; simpa [refreshClaims] using h
          | ok t => rw [hs] at h; simpa [refreshClaims] using h
        rw [h0] at hr
        exact ⟨hc.2, c0, rfl, hr, hc.1⟩

/-! ## The claims -/

/-- C1 (round trip). When `Signin` signs a token `s` for the user it looked up, reading
the clock at `clk 0`, and the library decodes `s` back to the signed claims and verifies
its signature under `jwtKey`, then `Signin` answers 200 with `s`, and `CheckValidToken`
on a request carrying `s`, at any reading `clk2 0` from the issuance instant up to the
token's expiry, accepts and returns claims whose `Username` is the user's. -/
theorem signin_token_round_trip (E : Env) (body : String) (clk : Clock)
    (creds : Credentials) (user : User) (s : String)
    (hbind : E.ShouldBindCredentials body = .ok creds)
    (hdb : E.QueryRow creds.Username creds.Password = .ok user)
    (hsign : E.jwt.SignedString (signinClaims user.Username (clk 0)) jwtKey = .ok s)
    (hdec : E.jwt.ParseUnverified s = .ok (signinClaims user.Username (clk 0)))
    (hver : E.jwt.Verify s jwtKey = true)
    (body2 : String) (clk2 : Clock)
    (hbind2 : E.ShouldBindJWTToken body2 = .ok ⟨s⟩)
    (_hle : clk 0 ≤ clk2 0)
    (hexp : clk2 0 ≤ (signinClaims user.Username (clk 0)).ExpiresAt * Second) :
    (Signin E body clk).response =
      ⟨StatusOK, [("Name", .str "token"), ("Value", .str s),
                  ("Expires", .time (Time.Add (clk 0) (5 * Minute)))]⟩ ∧
    Event.SignedString (signinClaims user.Username (clk 0)) jwtKey ∈ (Signin E body clk).events ∧
    ∃ c, CheckValidToken E body2 clk2 = (.ok c, (time.Now clk2).2) ∧
      c.Username = user.Username := by
  refine ⟨?_, ?_, signinClaims user.Username (clk 0), ?_, rfl⟩
  · rw [Signin_of_user E body clk creds user s hbind hdb hsign]
  · rw [Signin_of_user E body clk creds user s hbind hdb hsign]
    simp
  · apply CheckValidToken_accepts E body2 clk2 ⟨s⟩ _ hbind2 hdec hver
    apply Valid_eq_zero
    · right
      exact Unix_le_of_le_seconds _ _ hexp
    · left; rfl
    · left; rfl

/-- Witness of C1: `alice` signs in at 1000 s and presents the token at 1100 s. -/
theorem signin_token_round_trip_witness :
    (Signin demoEnv "alice:pw" (clockAt 1000)).response =
      ⟨StatusOK, [("Name", .str "token"), ("Value", .str "T1"),
                  ("Expires", .time (Time.Add (clockAt 1000 0) (5 * Minute)))]⟩ ∧
    Event.SignedString (signinClaims "alice" (clockAt 1000 0)) jwtKey
      ∈ (Signin demoEnv "alice:pw" (clockAt 1000)).events ∧
    ∃ c, CheckValidToken demoEnv "T1" (clockAt 1100) = (.ok c, (time.Now (clockAt 1100)).2) ∧
      c.Username = "alice" :=
  signin_token_round_trip demoEnv "alice:pw" (clockAt 1000)
    { Username := "alice", Password := "pw" }
    { ID := 1, Username := "alice", Password := "pw", Email := "alice@example.org" }
    "T1" rfl rfl rfl rfl rfl "T1" (clockAt 1100) rfl (by decide) (by decide)

/-- C4 (validation failures propagate and mint nothing). Whenever `CheckValidToken`
returns an error `e`, `Refresh` and `Welcome` both answer 500 with message exactly the
text of `e` and perform no effect, so no token is signed; in particular a request whose
token is correctly signed but expired gets 500 from `Refresh` and no new token. -/
theorem validation_failure_propagates (E : Env) (body : String) (clk : Clock) :
    (∀ e clk1, CheckValidToken E body clk = (.error e, clk1) →
      Refresh E body clk = ⟨⟨StatusInternalServerError, [("message", .str e.Error)]⟩, []⟩ ∧
      Welcome E body clk = ⟨⟨StatusInternalServerError, [("message", .str e.Error)]⟩, []⟩) ∧
    (∀ jw c, E.ShouldBindJWTToken body = .ok jw → E.jwt.ParseUnverified jw.Token = .ok c →
      c.ExpiresAt ≠ 0 → c.ExpiresAt < Time.Unix (clk 0) →
      (Refresh E body clk).response.status = StatusInternalServerError ∧
      (Refresh E body clk).events = []) := by
  constructor
  · intro e clk1 h
    refine ⟨Refresh_of_error E body clk clk1 e h, ?_⟩
    unfold Welcome
    rw [h]
  · intro jw c hbind hdec h0 hlt
    have hex : ∃ e, ParseWithClaims E.jwt jw.Token jwtKey clk = (.error e, (time.Now clk).2) := by
      cases hv : E.jwt.Verify jw.Token jwtKey with
      | true => exact ParseWithClaims_rejects_expired E.jwt jw.Token jwtKey clk c hdec hv h0 hlt
      | false => exact ParseWithClaims_rejects_unverified E.jwt jw.Token jwtKey clk c hdec hv
    obtain ⟨e, he⟩ := hex
    have hcv := CheckValidToken_of_parse_error E body clk _ jw e hbind he
    rw [Refresh_of_error E body clk _ _ hcv]
    exact ⟨rfl, rfl⟩

/-- Witness of C4: the expired token `T1` at 1301 s, and its error text in both handlers. -/
theorem validation_failure_propagates_witness :
    (Refresh demoEnv "T1" (clockAt 1301) =
        ⟨⟨StatusInternalServerError, [("message", .str "Invalid token signature")]⟩, []⟩ ∧
      Welcome demoEnv "T1" (clockAt 1301) =
        ⟨⟨StatusInternalServerError, [("message", .str "Invalid token signature")]⟩, []⟩) ∧
    ((Refresh demoEnv "T1" (clockAt 1301)).response.status = StatusInternalServerError ∧
      (Refresh demoEnv "T1" (clockAt 1301)).events = []) :=
  ⟨(validation_failure_propagates demoEnv "T1" (clockAt 1301)).1
      (customError "Invalid token signature") (time.Now (clockAt 1301)).2 rfl,
   (validation_failure_propagates demoEnv "T1" (clockAt 1301)).2
      ⟨"T1"⟩ demoClaims rfl rfl (by decide) (by decide)⟩

/-- C5 (Signin outcome classification). For every request: if the body does not bind to
credentials, `Signin` answers 406 and performs no effect (no store lookup, no signing);
if the store lookup fails, it answers 401 with the fixed body `error: You are not
authorzied`, whatever the credentials and the store error, and signs nothing; if the
lookup succeeds it signs claims for the returned user's `Username`, and answers 200 with
the signed token and its expiry when signing returns one; and a token is signed only
when the lookup succeeded. -/
theorem signin_outcome_classification (E : Env) (body : String) (clk : Clock) :
    (∀ err, E.ShouldBindCredentials body = .error err →
      Signin E body clk = ⟨⟨StatusNotAcceptable, [("error", .err err)]⟩, []⟩) ∧
    (∀ creds err, E.ShouldBindCredentials body = .ok creds →
      E.QueryRow creds.Username creds.Password = .error err →
      (Signin E body clk).response =
        ⟨StatusUnauthorized, [("error", .str "You are not authorzied")]⟩ ∧
      ∀ ev ∈ (Signin E body clk).events, ev.isSign = false) ∧
    (∀ creds user, E.ShouldBindCredentials body = .ok creds →
      E.QueryRow creds.Username creds.Password = .ok user →
      Event.SignedString (signinClaims user.Username (clk 0)) jwtKey
        ∈ (Signin E body clk).events ∧
      ∀ tokenString,
        E.jwt.SignedString (signinClaims user.Username (clk 0)) jwtKey = .ok tokenString →
        (Signin E body clk).response =
          ⟨StatusOK, [("Name", .str "token"), ("Value", .str tokenString),
                      ("Expires", .time (Time.Add (clk 0) (5 * Minute)))]⟩) ∧
    (∀ c key, Event.SignedString c key ∈ (Signin E body clk).events →
      ∃ creds user, E.ShouldBindCredentials body = .ok creds ∧
        E.QueryRow creds.Username creds.Password = .ok user ∧
        c = signinClaims user.Username (clk 0)) := by
  refine ⟨?_, ?_, ?_, ?_⟩
  · intro err hb
    unfold Signin
    rw [hb]
  · intro creds err hb hq
    have h : Signin E body clk =
        ⟨⟨StatusUnauthorized, [("error", .str "You are not authorzied")]⟩,
          [Event.QueryRow creds.Username creds.Password, Event.Println none]⟩ := by
      unfold Signin getUserFromDB
      simp only [hb, hq]
      rfl
    rw [h]
    refine ⟨rfl, ?_⟩
    intro ev hev
    simp only [List.mem_cons, List.mem_singleton, List.not_mem_nil, or_false] at hev
    rcases hev with hev | hev <;> rw [hev] <;> rfl
  · intro creds user hb hq
    constructor
    · cases hs : E.jwt.SignedString (signinClaims user.Username (clk 0)) jwtKey with
      | ok t =>
        rw [Signin_of_user E body clk creds user t hb hq hs]
        simp
      | error e =>
        unfold signinClaims at hs
        unfold Signin getUserFromDB
        simp only [hb, hq, time.Now, hs]
        simp [signinClaims]
    · intro t hs
      rw [Signin_of_user E body clk creds user t hb hq hs]
  · intro c key h
    exact (Signin_sign_events E body clk c key h).2

/-- Witness of C5: a failed lookup for `alice` with a wrong password. -/
theorem signin_outcome_classification_witness :
    (Signin demoEnv "alice:bad" (clockAt 1000)).response =
        ⟨StatusUnauthorized, [("error", .str "You are not authorzied")]⟩ ∧
      ∀ ev ∈ (Signin demoEnv "alice:bad" (clockAt 1000)).events, ev.isSign = false :=
  (signin_outcome_classification demoEnv "alice:bad" (clockAt 1000)).2.1
    { Username := "alice", Password := "bad" } ⟨"sql: no rows in result set"⟩ rfl rfl

/-- C7 (issuance expiry invariant). Every claims value that `Signin` signs, and every one
that the allow branch of `Refresh` signs, has `ExpiresAt` equal to the reading `now` of
the clock taken for it plus 5 minutes, in whole Unix seconds rounded down; that expiry is
strictly later than `now`; and it is set (non-zero) for every reading that is not before
the Unix epoch. The reading is the first one of a `Signin` request and the third one of a
`Refresh` request (after those of token validation and of the threshold check). -/
theorem issuance_expiry_invariant (E : Env) (body : String) (clk : Clock) (c : Claims)
    (key : String) :
    (Event.SignedString c key ∈ (Signin E body clk).events →
      c.ExpiresAt = Time.Unix (Time.Add (clk 0) (5 * Minute)) ∧
      c.ExpiresAt = (clk 0 + 300000000000) / 1000000000 ∧
      clk 0 < c.ExpiresAt * Second ∧
      (0 ≤ clk 0 → c.ExpiresAt ≠ 0)) ∧
    (Event.SignedString c key ∈ (Refresh E body clk).events →
      c.ExpiresAt = Time.Unix (Time.Add (clk 2) (5 * Minute)) ∧
      c.ExpiresAt = (clk 2 + 300000000000) / 1000000000 ∧
      clk 2 < c.ExpiresAt * Second ∧
      (0 ≤ clk 2 → c.ExpiresAt ≠ 0)) := by
  constructor
  · intro h
    obtain ⟨_, _, user, _, _, hc⟩ := Signin_sign_events E body clk c key h
    have he : c.ExpiresAt = Time.Unix (Time.Add (clk 0) (5 * Minute)) := by rw [hc]; rfl
    rw [he]
    exact ⟨rfl, Unix_add_five_minutes _, now_lt_expiry _, expiry_ne_zero _⟩
  · intro h
    obtain ⟨_, c0, _, _, hc⟩ := Refresh_sign_events E body clk c key h
    have he : c.ExpiresAt = Time.Unix (Time.Add (clk 2) (5 * Minute)) := by rw [hc]; rfl
    rw [he]
    exact ⟨rfl, Unix_add_five_minutes _, now_lt_expiry _, expiry_ne_zero _⟩

/-- Witness of C7: the claims signed by `Signin` at 1000 s and by `Refresh` at 1000 s. -/
theorem issuance_expiry_invariant_witness :
    (demoClaims.ExpiresAt = Time.Unix (Time.Add (clockAt 1000 0) (5 * Minute)) ∧
      demoClaims.ExpiresAt = (clockAt 1000 0 + 300000000000) / 1000000000 ∧
      clockAt 1000 0 < demoClaims.ExpiresAt * Second ∧
      (0 ≤ clockAt 1000 0 → demoClaims.ExpiresAt ≠ 0)) ∧
    (demoClaims.ExpiresAt = Time.Unix (Time.Add (clockAt 1000 2) (5 * Minute)) ∧
      demoClaims.ExpiresAt = (clockAt 1000 2 + 300000000000) / 1000000000 ∧
      clockAt 1000 2 < demoClaims.ExpiresAt * Second ∧
      (0 ≤ clockAt 1000 2 → demoClaims.ExpiresAt ≠ 0)) :=
  ⟨(issuance_expiry_invariant demoEnv "alice:pw" (clockAt 1000) demoClaims jwtKey).1
      (by decide),
   (issuance_expiry_invariant demoEnv "T1" (clockAt 1000) demoClaims jwtKey).2
      (by decide)⟩

/-- C8 (single unified verification error). For every request whose body binds to a token
string: whatever error the JWT parser returns for it, the sentinel `ErrSignatureInvalid`
or any validation error (malformed, expired, bad signature), `CheckValidToken` returns
the one error with text `Invalid token signature` and no claims; hence a token whose
signature does not verify reports that error whether or not it is also expired. -/
theorem parse_errors_unified (E : Env) (body : String) (clk : Clock) (jw : JWTToken)
    (hbind : E.ShouldBindJWTToken body = .ok jw) :
    (∀ e clk1, ParseWithClaims E.jwt jw.Token jwtKey clk = (.error e, clk1) →
      CheckValidToken E body clk = (.error (customError "Invalid token signature"), clk1)) ∧
    (∀ c, E.jwt.ParseUnverified jw.Token = .ok c → E.jwt.Verify jw.Token jwtKey = false →
      (CheckValidToken E body clk).1 = .error (customError "Invalid token signature")) ∧
    (∀ e, E.jwt.ParseUnverified jw.Token = .error e →
      (CheckValidToken E body clk).1 = .error (customError "Invalid token signature")) := by
  refine ⟨?_, ?_, ?_⟩
  · intro e clk1 h
    exact CheckValidToken_of_parse_error E body clk clk1 jw e hbind h
  · intro c hdec hver
    obtain ⟨e, he⟩ := ParseWithClaims_rejects_unverified E.jwt jw.Token jwtKey clk c hdec hver
    rw [CheckValidToken_of_parse_error E body clk _ jw e hbind he]
  · intro e hdec
    have he : ParseWithClaims E.jwt jw.Token jwtKey clk = (.error e, clk) := by
      unfold ParseWithClaims
      rw [hdec]
    rw [CheckValidToken_of_parse_error E body clk _ jw e hbind he]

/-- Witness of C8: the token `T1x`, tampered and expired at 1301 s. -/
theorem parse_errors_unified_witness :
    (CheckValidToken demoEnv "T1x" (clockAt 1301)).1 =
      .error (customError "Invalid token signature") :=
  (parse_errors_unified demoEnv "T1x" (clockAt 1301) ⟨"T1x"⟩ rfl).2.1 demoClaims rfl rfl

/-- C2 (cooldown gate), with threshold `2 * time.Hour` and `remaining` the time from the
clock reading of the threshold check (`clk 1`) to `c.ExpiresAt`, holds of `Refresh` for
every accepted token whose `ExpiresAt` is at most 9223371974719179007: above the
threshold `Refresh` answers 400 and signs nothing, otherwise it signs the claims with the
same `Username` and `ExpiresAt` the next reading (`clk 2`) plus 5 minutes in whole Unix
seconds and answers 200 with the token signing returns. It fails for the larger int64
values of `ExpiresAt`: `time.Unix` wraps, the check sees an instant in the past, and
although `remaining` exceeds the threshold `Refresh` does not answer 400 but signs a new
token. -/
theorem refresh_gate_wraps_for_large_expiry (E : Env) (body : String) (clk : Clock)
    (c : Claims) (hacc : (CheckValidToken E body clk).1 = .ok c) :
    (-9223372036854775808 ≤ c.ExpiresAt → c.ExpiresAt ≤ 9223371974719179007 →
      (c.ExpiresAt * 1000000000 - clk 1 > 7200000000000 →
        (Refresh E body clk).response.status = StatusBadRequest ∧
        (Refresh E body clk).events = []) ∧
      (c.ExpiresAt * 1000000000 - clk 1 ≤ 7200000000000 →
        (Refresh E body clk).events =
          [Event.SignedString
            { c with ExpiresAt := (clk 2 + 300000000000) / 1000000000 } jwtKey] ∧
        ∀ s, E.jwt.SignedString
            { c with ExpiresAt := (clk 2 + 300000000000) / 1000000000 } jwtKey = .ok s →
          (Refresh E body clk).response =
            ⟨StatusOK, [("Name", .str "session_token"), ("Value", .str s),
                        ("Expires", .time (clk 2 + 300000000000))]⟩)) ∧
    (9223371974719179008 ≤ c.ExpiresAt → c.ExpiresAt ≤ 9223372036854775807 →
      0 ≤ clk 1 → clk 1 ≤ 9223372036854775807 →
      c.ExpiresAt * 1000000000 - clk 1 > 7200000000000 ∧
      (Refresh E body clk).response.status ≠ StatusBadRequest ∧
      (Refresh E body clk).events =
        [Event.SignedString
          { c with ExpiresAt := (clk 2 + 300000000000) / 1000000000 } jwtKey] ∧
      ∀ s, E.jwt.SignedString
          { c with ExpiresAt := (clk 2 + 300000000000) / 1000000000 } jwtKey = .ok s →
        (Refresh E body clk).response =
          ⟨StatusOK, [("Name", .str "session_token"), ("Value", .str s),
                      ("Expires", .time (clk 2 + 300000000000))]⟩) := by
  have hcv := CheckValidToken_ok_eq E body clk c hacc
  constructor
  · intro hlo hhi
    have hu := time_Unix_in_range c.ExpiresAt hlo hhi
    constructor
    · intro hr
      have hg : Time.Sub (time.Unix c.ExpiresAt 0) (clk 1) > 2 * Hour := by
        rw [Sub_gt_two_hours_iff, hu]
        exact hr
      rw [Refresh_of_reject E body clk _ c hcv hg]
      exact ⟨rfl, rfl⟩
    · intro hr
      have hg : ¬ Time.Sub (time.Unix c.ExpiresAt 0) (clk 1) > 2 * Hour := by
        rw [Sub_gt_two_hours_iff, hu]
        omega
      obtain ⟨_, h1, h3⟩ := Refresh_allow_outcome E body clk c hacc hg
      exact ⟨h1, h3⟩
  · intro hlo hhi hn0 hn1
    have hu := time_Unix_wrapped c.ExpiresAt hlo hhi
    have ha := wrapped_remaining c.ExpiresAt (clk 1) hlo hhi hn0 hn1
    have hg : ¬ Time.Sub (time.Unix c.ExpiresAt 0) (clk 1) > 2 * Hour := by
      rw [Sub_gt_two_hours_iff, hu]
      exact ha.1
    exact ⟨ha.2, Refresh_allow_outcome E body clk c hacc hg⟩

/-- Witness of C2: `T4`, signed with the key and expiring at the greatest int64 second,
is accepted at 1000 s; its remaining validity exceeds two hours, yet `Refresh` signs the
claims expiring at 1300 s and answers 200. -/
theorem refresh_gate_wraps_for_large_expiry_witness :
    (demoMaxExpiry.ExpiresAt * 1000000000 - clockAt 1000 1 > 7200000000000 ∧
      (Refresh demoEnv "T4" (clockAt 1000)).response.status ≠ StatusBadRequest ∧
      (Refresh demoEnv "T4" (clockAt 1000)).events =
        [Event.SignedString
          { demoMaxExpiry with
            ExpiresAt := (clockAt 1000 2 + 300000000000) / 1000000000 } jwtKey] ∧
      ∀ s, demoEnv.jwt.SignedString
          { demoMaxExpiry with
            ExpiresAt := (clockAt 1000 2 + 300000000000) / 1000000000 } jwtKey = .ok s →
        (Refresh demoEnv "T4" (clockAt 1000)).response =
          ⟨StatusOK, [("Name", .str "session_token"), ("Value", .str s),
                      ("Expires", .time (clockAt 1000 2 + 300000000000))]⟩) ∧
    (CheckValidToken demoEnv "T4" (clockAt 1000)).1 = .ok demoMaxExpiry ∧
    Refresh demoEnv "T4" (clockAt 1000) =
      ⟨⟨200, [("Name", .str "session_token"), ("Value", .str "T1"),
              ("Expires", .time 1300000000000)]⟩,
        [Event.SignedString { Username := "alice", ExpiresAt := 1300 } jwtKey]⟩ ∧
    Refresh demoEnv "T3" (clockAt 1000) =
      ⟨⟨400, [("error", .str
        "Your token is new for session, wait for 1970-01-01T00:21:40Z to renew token")]⟩,
        []⟩ :=
  ⟨(refresh_gate_wraps_for_large_expiry demoEnv "T4" (clockAt 1000) demoMaxExpiry rfl).2
      (by decide) (by decide) (by decide) (by decide),
    rfl, rfl, rfl⟩

/-- C3, as stated, fails. In the concrete environment `T1` is correctly signed and its
`ExpiresAt` (1300 s) is earlier than the clock (1301 s); `CheckValidToken` fails with the
error `Invalid token signature`, which is the very error it returns for `T1x`, whose
signature does not verify. Moreover at 1300.5 s, later than `ExpiresAt`, `T1` is still
accepted, and an `ExpiresAt` of 0 passes the expiry check at any time (`verifyExp`). -/
theorem expired_error_not_distinct :
    demoLib.SignedString demoClaims jwtKey = .ok "T1" ∧
    demoLib.Verify "T1" jwtKey = true ∧
    demoLib.Verify "T1x" jwtKey = false ∧
    time.Unix demoClaims.ExpiresAt 0 < clockAt 1301 0 ∧
    (CheckValidToken demoEnv "T1" (clockAt 1301)).1
      = .error (customError "Invalid token signature") ∧
    (CheckValidToken demoEnv "T1" (clockAt 1301)).1
      = (CheckValidToken demoEnv "T1x" (clockAt 1100)).1 ∧
    time.Unix demoClaims.ExpiresAt 0 < clockAtNanos 1300500000000 0 ∧
    (CheckValidToken demoEnv "T1" (clockAtNanos 1300500000000)).1 = .ok demoClaims ∧
    verifyExp 0 1301 false = true :=
  ⟨rfl, rfl, rfl, by decide, rfl, rfl, by decide, rfl, rfl⟩

/-- C3, amended. For every request whose token decodes, is correctly signed under
`jwtKey`, and has an `ExpiresAt` that is set (non-zero) and earlier than the Unix second
of the clock reading, `CheckValidToken` fails, and the error it returns is `Invalid token
signature`, the same error it returns for any token whose signature does not verify. -/
theorem expired_token_rejected (E : Env) (body : String) (clk : Clock) (jw : JWTToken)
    (c : Claims)
    (hbind : E.ShouldBindJWTToken body = .ok jw)
    (hdec : E.jwt.ParseUnverified jw.Token = .ok c)
    (hver : E.jwt.Verify jw.Token jwtKey = true)
    (hset : c.ExpiresAt ≠ 0)
    (hexp : c.ExpiresAt < Time.Unix (clk 0)) :
    CheckValidToken E body clk
      = (.error (customError "Invalid token signature"), (time.Now clk).2) ∧
    ∀ body2 clk2 jw2 c2, E.ShouldBindJWTToken body2 = .ok jw2 →
      E.jwt.ParseUnverified jw2.Token = .ok c2 → E.jwt.Verify jw2.Token jwtKey = false →
      (CheckValidToken E body2 clk2).1 = (CheckValidToken E body clk).1 := by
  obtain ⟨e, he⟩ := ParseWithClaims_rejects_expired E.jwt jw.Token jwtKey clk c hdec hver hset hexp
  have h1 := CheckValidToken_of_parse_error E body clk _ jw e hbind he
  refine ⟨h1, ?_⟩
  intro body2 clk2 jw2 c2 hb2 hd2 hv2
  obtain ⟨e2, he2⟩ := ParseWithClaims_rejects_unverified E.jwt jw2.Token jwtKey clk2 c2 hd2 hv2
  rw [CheckValidToken_of_parse_error E body2 clk2 _ jw2 e2 hb2 he2, h1]

/-- Witness of C3 amended: `T1` (expiry 1300 s) presented at 1301 s. -/
theorem expired_token_rejected_witness :
    CheckValidToken demoEnv "T1" (clockAt 1301)
      = (.error (customError "Invalid token signature"), (time.Now (clockAt 1301)).2) ∧
    ∀ body2 clk2 jw2 c2, demoEnv.ShouldBindJWTToken body2 = .ok jw2 →
      demoEnv.jwt.ParseUnverified jw2.Token = .ok c2 →
      demoEnv.jwt.Verify jw2.Token jwtKey = false →
      (CheckValidToken demoEnv body2 clk2).1 = (CheckValidToken demoEnv "T1" (clockAt 1301)).1 :=
  expired_token_rejected demoEnv "T1" (clockAt 1301) ⟨"T1"⟩ demoClaims rfl rfl rfl
    (by decide) (by decide)

/-- C6, as stated, fails. In the concrete environment `T2` is signed with the key and
carries an issuer next to the username; `CheckValidToken` accepts it at 1000 s and
`Refresh` allows it, but the claims `Refresh` signs still carry the issuer, so they are
not the claims the issuance step of `Signin` signs for `alice` at that instant, and the
token returned (`T2`) is not the token that step returns (`T1`). -/
theorem refresh_keeps_foreign_fields :
    (CheckValidToken demoEnv "T2" (clockAt 1000)).1 = .ok demoForeign ∧
    Refresh demoEnv "T2" (clockAt 1000) =
      ⟨⟨StatusOK, [("Name", .str "session_token"), ("Value", .str "T2"),
                   ("Expires", .time 1300000000000)]⟩,
        [Event.SignedString demoForeign jwtKey]⟩ ∧
    demoForeign.Issuer = "other" ∧
    demoForeign ≠ signinClaims "alice" (clockAt 1000 2) ∧
    demoLib.SignedString (signinClaims "alice" (clockAt 1000 2)) jwtKey = .ok "T1" :=
  ⟨rfl, rfl, rfl, by decide, rfl⟩

/-- C6, amended. For every request whose token `CheckValidToken` accepts with claims `c`
and that `Refresh` allows, the token `Refresh` returns is the one signed for `c` with only
`ExpiresAt` replaced by the clock reading plus 5 minutes (whole Unix seconds): `Username`
and every other claim field keep the value they had in `c`. These claims are the ones the
issuance step of `Signin` signs for `c.Username` at that reading exactly when the other
fields of `c` are unset. -/
theorem refresh_reissues_parsed_claims (E : Env) (body : String) (clk : Clock) (c : Claims)
    (s : String)
    (hacc : (CheckValidToken E body clk).1 = .ok c)
    (hallow : ¬ Time.Sub (time.Unix c.ExpiresAt 0) (clk 1) > 2 * Hour)
    (hsign : E.jwt.SignedString (refreshClaims c (clk 2)) jwtKey = .ok s) :
    Refresh E body clk =
      ⟨⟨StatusOK, [("Name", .str "session_token"), ("Value", .str s),
                   ("Expires", .time (Time.Add (clk 2) (5 * Minute)))]⟩,
        [Event.SignedString (refreshClaims c (clk 2)) jwtKey]⟩ ∧
    refreshClaims c (clk 2) =
      { Username := c.Username, ExpiresAt := Time.Unix (Time.Add (clk 2) (5 * Minute)),
        Audience := c.Audience, Id := c.Id, IssuedAt := c.IssuedAt, Issuer := c.Issuer,
        NotBefore := c.NotBefore, Subject := c.Subject } ∧
    (refreshClaims c (clk 2) = signinClaims c.Username (clk 2) ↔
      c.Audience = "" ∧ c.Id = "" ∧ c.IssuedAt = 0 ∧ c.Issuer = "" ∧ c.NotBefore = 0 ∧
      c.Subject = "") := by
  have hcv := CheckValidToken_ok_eq E body clk c hacc
  exact ⟨Refresh_of_allow E body clk _ c s hcv hallow hsign, rfl,
    refreshClaims_eq_signinClaims_iff c (clk 2)⟩

/-- Witness of C6 amended: `T2` refreshed at 1000 s. -/
theorem refresh_reissues_parsed_claims_witness :
    Refresh demoEnv "T2" (clockAt 1000) =
      ⟨⟨StatusOK, [("Name", .str "session_token"), ("Value", .str "T2"),
                   ("Expires", .time (Time.Add (clockAt 1000 2) (5 * Minute)))]⟩,
        [Event.SignedString (refreshClaims demoForeign (clockAt 1000 2)) jwtKey]⟩ ∧
    refreshClaims demoForeign (clockAt 1000 2) =
      { Username := demoForeign.Username,
        ExpiresAt := Time.Unix (Time.Add (clockAt 1000 2) (5 * Minute)),
        Audience := demoForeign.Audience, Id := demoForeign.Id,
        IssuedAt := demoForeign.IssuedAt, Issuer := demoForeign.Issuer,
        NotBefore := demoForeign.NotBefore, Subject := demoForeign.Subject } ∧
    (refreshClaims demoForeign (clockAt 1000 2)
        = signinClaims demoForeign.Username (clockAt 1000 2) ↔
      demoForeign.Audience = "" ∧ demoForeign.Id = "" ∧ demoForeign.IssuedAt = 0 ∧
      demoForeign.Issuer = "" ∧ demoForeign.NotBefore = 0 ∧ demoForeign.Subject = "") :=
  refresh_reissues_parsed_claims demoEnv "T2" (clockAt 1000) demoForeign "T2" rfl
    (by decide) rfl

/-- C9 (30-second refresh window) is what the comment above the check in `Refresh`
promises, but the check compares with `2 * time.Hour`: for every request whose token
`CheckValidToken` accepts with more than 30 seconds and at most 2 hours of validity left
at the threshold check, `Refresh` does not answer 400; it signs a new token and answers
200 with it. -/
theorem refresh_ignores_thirty_second_window (E : Env) (body : String) (clk : Clock)
    (c : Claims) (s : String)
    (hacc : (CheckValidToken E body clk).1 = .ok c)
    (hfar : Time.Sub (time.Unix c.ExpiresAt 0) (clk 1) > 30 * Second)
    (hnear : Time.Sub (time.Unix c.ExpiresAt 0) (clk 1) ≤ 2 * Hour)
    (hsign : E.jwt.SignedString (refreshClaims c (clk 2)) jwtKey = .ok s) :
    30 * Second < Time.Sub (time.Unix c.ExpiresAt 0) (clk 1) ∧
    (Refresh E body clk).response.status = StatusOK ∧
    (Refresh E body clk).response.status ≠ StatusBadRequest ∧
    (Refresh E body clk).events = [Event.SignedString (refreshClaims c (clk 2)) jwtKey] := by
  have hcv := CheckValidToken_ok_eq E body clk c hacc
  rw [Refresh_of_allow E body clk _ c s hcv (not_lt.mpr hnear) hsign]
  refine ⟨hfar, rfl, ?_, rfl⟩
  show StatusOK ≠ StatusBadRequest
  decide

/-- Witness of C9: `T1`, minted at 1000 s, refreshed at 1100 s with 200 s remaining. -/
theorem refresh_ignores_thirty_second_window_witness :
    30 * Second < Time.Sub (time.Unix demoClaims.ExpiresAt 0) (clockAt 1100 1) ∧
    (Refresh demoEnv "T1" (clockAt 1100)).response.status = StatusOK ∧
    (Refresh demoEnv "T1" (clockAt 1100)).response.status ≠ StatusBadRequest ∧
    (Refresh demoEnv "T1" (clockAt 1100)).events
      = [Event.SignedString (refreshClaims demoClaims (clockAt 1100 2)) jwtKey] :=
  refresh_ignores_thirty_second_window demoEnv "T1" (clockAt 1100) demoClaims "T0" rfl
    (by decide) (by decide) rfl

/-- C10, as stated, fails. In the concrete environment `Signin` mints `T1` at 1000 s
with expiry 1300 s; presented to `Refresh` at 1280 s, 20 seconds before its expiry, it is
accepted and `Refresh` reaches its allow branch: it signs a replacement expiring at
1580 s and answers 200. -/
theorem refresh_allow_branch_reached :
    (Signin demoEnv "alice:pw" (clockAt 1000)).response =
      ⟨200, [("Name", .str "token"), ("Value", .str "T1"),
             ("Expires", .time 1300000000000)]⟩ ∧
    (CheckValidToken demoEnv "T1" (clockAt 1280)).1 =
      .ok { Username := "alice", ExpiresAt := 1300 } ∧
    Refresh demoEnv "T1" (clockAt 1280) =
      ⟨⟨200, [("Name", .str "session_token"), ("Value", .str "T0"),
              ("Expires", .time 1580000000000)]⟩,
        [Event.SignedString { Username := "alice", ExpiresAt := 1580 } jwtKey]⟩ :=
  ⟨rfl, rfl, rfl⟩

/-- C10, amended. The allow branch is reachable for system-issued tokens: for every token
whose `ExpiresAt` is a mint instant `t` plus 5 minutes in whole Unix seconds (as `Signin`
and `Refresh` mint them), accepted by `CheckValidToken` and checked by `Refresh` at a
clock reading not earlier than `t` and within 30 seconds of the expiry, the check of
`Refresh` does not reject: `Refresh` signs a replacement whose `ExpiresAt` is the next
reading plus 5 minutes and answers 200 with the token signing returns. -/
theorem refresh_issues_near_expiry (E : Env) (body : String) (clk : Clock)
    (c : Claims) (t : Time)
    (hacc : (CheckValidToken E body clk).1 = .ok c)
    (hmint : c.ExpiresAt = (t + 300000000000) / 1000000000)
    (hint : isInt64 c.ExpiresAt)
    (_hnow : t ≤ clk 1)
    (hnear : c.ExpiresAt * 1000000000 - clk 1 ≤ 30000000000) :
    ¬ Time.Sub (time.Unix c.ExpiresAt 0) (clk 1) > 2 * Hour ∧
    (Refresh E body clk).response.status ≠ StatusBadRequest ∧
    (Refresh E body clk).events =
      [Event.SignedString
        { c with ExpiresAt := (clk 2 + 300000000000) / 1000000000 } jwtKey] ∧
    ∀ s, E.jwt.SignedString
        { c with ExpiresAt := (clk 2 + 300000000000) / 1000000000 } jwtKey = .ok s →
      (Refresh E body clk).response =
        ⟨StatusOK, [("Name", .str "session_token"), ("Value", .str s),
                    ("Expires", .time (clk 2 + 300000000000))]⟩ := by
  have _ := hmint
  have hle := time_Unix_le c.ExpiresAt hint.1
  have hg : ¬ Time.Sub (time.Unix c.ExpiresAt 0) (clk 1) > 2 * Hour := by
    rw [Sub_gt_two_hours_iff]
    exact near_expiry_not_rejected _ _ _ hle hnear
  exact ⟨hg, Refresh_allow_outcome E body clk c hacc hg⟩

/-- Witness of C10 amended: `T1`, minted at 1000 s, refreshed at 1280 s. -/
theorem refresh_issues_near_expiry_witness :
    ¬ Time.Sub (time.Unix demoClaims.ExpiresAt 0) (clockAt 1280 1) > 2 * Hour ∧
    (Refresh demoEnv "T1" (clockAt 1280)).response.status ≠ StatusBadRequest ∧
    (Refresh demoEnv "T1" (clockAt 1280)).events =
      [Event.SignedString
        { demoClaims with ExpiresAt := (clockAt 1280 2 + 300000000000) / 1000000000 } jwtKey] ∧
    ∀ s, demoEnv.jwt.SignedString
        { demoClaims with
          ExpiresAt := (clockAt 1280 2 + 300000000000) / 1000000000 } jwtKey = .ok s →
      (Refresh demoEnv "T1" (clockAt 1280)).response =
        ⟨StatusOK, [("Name", .str "session_token"), ("Value", .str s),
                    ("Expires", .time (clockAt 1280 2 + 300000000000))]⟩ :=
  refresh_issues_near_expiry demoEnv "T1" (clockAt 1280) demoClaims (clockAt 1000 0) rfl
    (by decide) (by decide) (by decide) (by decide)

end GoJwt
